import Mathlib

/-!
Shallow embedding of the `memory-mapped` Rust crate
(src/lib.rs, src/open_options.rs, src/raw_memory_mapping.rs).

Modelling conventions:
* Machine integers (`usize`, `off_t`, errno) are `Nat` / `Int`.  The one
  place where `usize` arithmetic can underflow (`file_size - byte_offset`
  in `open_from_file`) is modelled by `usizeSub?`, which returns `none`
  on underflow (a Rust panic / wrap, in any case not an `io::Result`
  error).
* The OS is an oracle: an `mmap` / `mremap` call either succeeds with a
  base address chosen by the OS, or fails with an errno.  The backing
  file is a byte function `file : Nat → Nat` together with its current
  size `fileLen`.
* A `RawMemoryMapping` stores its mapped bytes as a list `mem` (so that
  content-preservation properties are expressible); the Rust field
  `byte_size` is recovered as `mem.length`, and `byte_offset` is the
  alignment padding, exactly as in the Rust struct.
* `mremap` preserves the common prefix of the mapped bytes and may move
  the base address; bytes beyond the old size are arbitrary, supplied by
  the oracle function `uninit`.
* Typed slice views (`MemoryMapped<[T]>`) are modelled by passing the
  element size `s` explicitly; an element value is its list of `s`
  bytes.  A Rust `FnMut() -> T` generator is modelled as a pure stream
  `g : Nat → Nat → Nat`: the k-th invocation returns the element whose
  byte `b` is `g k b`, which also makes the number and order of
  invocations observable.
* A Rust panic (failed `assert!`, out-of-range slice index) is modelled
  as `none` / `ResizeResult.panicked`, distinct from an `io` error.
-/

/-- Mapping request/configuration: `OpenOptions` from src/open_options.rs. -/
structure OpenOptions where
  read : Bool
  write : Bool
  create : Bool
  create_new : Bool
  shared : Bool
  byte_offset : Nat
  byte_len : Nat
deriving Repr, DecidableEq

/-- Constant `libc::PROT_NONE`. -/
def PROT_NONE : Nat := 0
/-- Constant `libc::PROT_READ`. -/
def PROT_READ : Nat := 1
/-- Constant `libc::PROT_WRITE`. -/
def PROT_WRITE : Nat := 2
/-- Constant `libc::MAP_SHARED`. -/
def MAP_SHARED : Nat := 1
/-- Constant `libc::MAP_PRIVATE`. -/
def MAP_PRIVATE : Nat := 2

/-- Fresh options: `OpenOptions::new` (src/open_options.rs). -/
def OpenOptions.fresh : OpenOptions :=
  { read := false, write := false, create := false, create_new := false,
    shared := false, byte_offset := 0, byte_len := 0 }

/-- Protection-flag translation: `OpenOptions::get_mmap_protection`. -/
def OpenOptions.get_mmap_protection (o : OpenOptions) : Nat :=
  PROT_NONE ||| (if o.read then PROT_READ else 0) |||
    (if o.write then PROT_WRITE else 0)

/-- Visibility-flag translation: `OpenOptions::get_mmap_flags`. -/
def OpenOptions.get_mmap_flags (o : OpenOptions) : Nat :=
  if o.shared then MAP_SHARED else MAP_PRIVATE

/-- Slice-flavoured setter `OpenOptions::<[T]>::offset`, with the element
size `s` passed explicitly for `std::mem::size_of::<T>()`. -/
def OpenOptions.offset (s : Nat) (o : OpenOptions) (element_offset : Nat) :
    OpenOptions :=
  { o with byte_offset := element_offset * s }

/-- Slice-flavoured setter `OpenOptions::<[T]>::len`. -/
def OpenOptions.len (s : Nat) (o : OpenOptions) (n : Nat) : OpenOptions :=
  { o with byte_len := n * s }

/-- State of `RawMemoryMapping` (src/raw_memory_mapping.rs): `ptr` is the
base address, `mem` the total mapped bytes (so the Rust `byte_size` field
is `mem.length`), `byte_offset` the alignment padding. -/
structure RawMemoryMapping where
  ptr : Nat
  mem : List Nat
  byte_offset : Nat
deriving Repr, DecidableEq

/-- The Rust field `byte_size`: total mapped bytes including padding. -/
def RawMemoryMapping.byte_size (m : RawMemoryMapping) : Nat := m.mem.length

/-- Logical segment length: `RawMemoryMapping::segment_byte_len`. -/
def RawMemoryMapping.segment_byte_len (m : RawMemoryMapping) : Nat :=
  m.byte_size - m.byte_offset

/-- Logical segment start address: `RawMemoryMapping::segment_ptr`. -/
def RawMemoryMapping.segment_ptr (m : RawMemoryMapping) : Nat :=
  m.ptr + m.byte_offset

/-- Bytes of the logical segment (what `segment_ptr` points at). -/
def RawMemoryMapping.segment (m : RawMemoryMapping) : List Nat :=
  m.mem.drop m.byte_offset

/-- Outcome of the single `libc::mmap` call, chosen by the OS. -/
inductive MmapOutcome where
  | ok (base : Nat)
  | fail (errno : Int)
deriving Repr, DecidableEq

/-- Outcome of the single `libc::mremap` call, chosen by the OS. -/
inductive MremapOutcome where
  | ok (newBase : Nat)
  | fail (errno : Int)
deriving Repr, DecidableEq

/-- Description of one OS `mmap` call (address hint is always null in the
source, so it is omitted). -/
structure MmapCall where
  size : Nat
  protection : Nat
  flags : Nat
  fd : Int
  file_offset : Nat
deriving Repr, DecidableEq

/-- The single `libc::mmap` call issued by `RawMemoryMapping::open`
(src/raw_memory_mapping.rs lines 17-30): `open` below consumes exactly
this one call, so "exactly one OS mapping call" holds by construction. -/
def RawMemoryMapping.openCall (ps : Nat) (fd : Int) (o : OpenOptions) :
    MmapCall :=
  let offset_delta := o.byte_offset % ps
  { size := o.byte_len + offset_delta
    protection := o.get_mmap_protection
    flags := o.get_mmap_flags
    fd := fd
    file_offset := o.byte_offset - offset_delta }

/-- `RawMemoryMapping::open` (src/raw_memory_mapping.rs).  `ps` is
`page_size()`, `file` the backing file's bytes, `os` the outcome of the
`mmap` call described by `openCall`.  On success the mapped bytes are the
file's bytes starting at the page-aligned offset. -/
def RawMemoryMapping.openMapping (ps : Nat) (file : Nat → Nat)
    (os : MmapOutcome) (fd : Int) (o : OpenOptions) :
    Except Int RawMemoryMapping :=
  let offset_delta := o.byte_offset % ps
  let mapping_size := o.byte_len + offset_delta
  match os with
  | .fail errno => .error errno
  | .ok base =>
      .ok { ptr := base
            mem := (List.range mapping_size).map
              (fun i => file (o.byte_offset - offset_delta + i))
            byte_offset := offset_delta }

/-- `RawMemoryMapping::byte_resize` (src/raw_memory_mapping.rs lines
63-79).  On `mremap` failure it returns the error and the state
unchanged; on success the mapping keeps its old bytes up to the smaller
of the two sizes, bytes beyond that come from the oracle `uninit`, the
base address is the one returned by the OS, and `byte_size` becomes
`new_byte_size`.  Note that the stored `byte_offset` (alignment padding)
is NOT accounted for in `new_byte_size` by any caller. -/
def RawMemoryMapping.byte_resize (os : MremapOutcome) (uninit : Nat → Nat)
    (m : RawMemoryMapping) (new_byte_size : Nat) :
    RawMemoryMapping × Except Int Unit :=
  match os with
  | .fail errno => (m, .error errno)
  | .ok newBase =>
      ({ ptr := newBase
         mem := (List.range new_byte_size).map (fun i => m.mem.getD i (uninit i))
         byte_offset := m.byte_offset }, .ok ())

/-- Element count of a slice view: `MemoryMapped::<[T]>::as_slice` computes
`segment_byte_len / size_of::<T>()` (src/lib.rs lines 140-147); this is
also `<[T]>::len()` of the resulting slice. -/
def sliceLen (s : Nat) (m : RawMemoryMapping) : Nat :=
  m.segment_byte_len / s

/-- Value (list of `s` bytes) of element `i` of the slice view, when it
exists: byte-level reading of `as_slice()[i]`. -/
def elemAt? (s : Nat) (m : RawMemoryMapping) (i : Nat) : Option (List Nat) :=
  if i < sliceLen s m then some ((m.segment.drop (i * s)).take s) else none

/-- `MemoryMapped::<[MaybeUninit<T>]>::resize_uninit` (src/lib.rs lines
164-167): delegates to `byte_resize` with `new_len * size_of::<T>()`. -/
def resize_uninit (s : Nat) (os : MremapOutcome) (uninit : Nat → Nat)
    (m : RawMemoryMapping) (new_len : Nat) :
    RawMemoryMapping × Except Int Unit :=
  RawMemoryMapping.byte_resize os uninit m (new_len * s)

/-- `MemoryMapped::<[T]>::resize_assume_init` (src/lib.rs lines 177-180):
the transmute to `[MaybeUninit<T>]` is the identity on the byte-level
model, so this is `resize_uninit`. -/
def resize_assume_init (s : Nat) (os : MremapOutcome) (uninit : Nat → Nat)
    (m : RawMemoryMapping) (new_len : Nat) :
    RawMemoryMapping × Except Int Unit :=
  resize_uninit s os uninit m new_len

/-- Writing element `j` of the slice view through `as_slice_mut`: bytes
`byte_offset + j*s + k` for `k < s` are replaced by `v k`. -/
def writeElem (s : Nat) (m : RawMemoryMapping) (j : Nat) (v : Nat → Nat) :
    RawMemoryMapping :=
  let newMem := (List.range s).foldl
    (fun l k => l.set (m.byte_offset + j * s + k) (v k)) m.mem
  { m with mem := newMem }

/-- The `fill_with` loop of `resize_with`: elements `start`, `start+1`,
…, `stop-1` are written in ascending index order; the element at index
`start + k` receives the k-th generator invocation `g k`. -/
def fill_with (s : Nat) (g : Nat → Nat → Nat) (m : RawMemoryMapping)
    (start stop : Nat) : RawMemoryMapping :=
  (List.range (stop - start)).foldl
    (fun mm k => writeElem s mm (start + k) (g k)) m

/-- Result of a typed resize operation: success with the new state, an
`io` error with the (unchanged) state, or a Rust panic. -/
inductive ResizeResult where
  | ok (m : RawMemoryMapping)
  | err (m : RawMemoryMapping) (errno : Int)
  | panicked
deriving Repr, DecidableEq

/-- `MemoryMapped::<[T]>::resize_with` (src/lib.rs lines 187-202):
records `old_len = self.len()`, resizes via `resize_uninit`, and when
`new_len > old_len` fills the tail `as_slice_mut()[old_len..]` of the
RESIZED view by repeated generator invocation.  The second component is
the number of generator invocations (the length of that tail).  Rust's
`[old_len..]` panics when `old_len` exceeds the resized slice's length. -/
def resize_with (s : Nat) (os : MremapOutcome) (uninit : Nat → Nat)
    (g : Nat → Nat → Nat) (m : RawMemoryMapping) (new_len : Nat) :
    ResizeResult × Nat :=
  let old_len := sliceLen s m
  match resize_uninit s os uninit m new_len with
  | (m1, .error e) => (.err m1 e, 0)
  | (m1, .ok _) =>
      if new_len > old_len then
        if old_len ≤ sliceLen s m1 then
          (.ok (fill_with s g m1 old_len (sliceLen s m1)),
           sliceLen s m1 - old_len)
        else (.panicked, 0)
      else (.ok m1, 0)

/-- `MemoryMapped::<[T]>::shrink_to` (src/lib.rs lines 205-211):
`assert!(self.len() > new_len)` — the panic is modelled as `none` — then
`resize_assume_init`. -/
def shrink_to (s : Nat) (os : MremapOutcome) (uninit : Nat → Nat)
    (m : RawMemoryMapping) (new_len : Nat) :
    Option (RawMemoryMapping × Except Int Unit) :=
  if sliceLen s m > new_len then
    some (resize_assume_init s os uninit m new_len)
  else none

/-- `MemoryMapped::<[T: Copy]>::resize` (src/lib.rs lines 220-222):
delegates to `resize_with` with the constant generator `move || fill`. -/
def resize (s : Nat) (os : MremapOutcome) (uninit : Nat → Nat)
    (fill : Nat → Nat) (m : RawMemoryMapping) (new_len : Nat) :
    ResizeResult × Nat :=
  resize_with s os uninit (fun _ => fill) m new_len

/-- Element `i` of the state carried by a `ResizeResult`, when the
operation succeeded or failed recoverably. -/
def resultElem? (s : Nat) : ResizeResult → Nat → Option (List Nat)
  | .ok m, i => elemAt? s m i
  | .err m _, i => elemAt? s m i
  | .panicked, _ => none

/-- Rust `usize` subtraction: `none` models the underflow panic (debug)
or wrap (release) — in either case not a normal return. -/
def usizeSub? (a b : Nat) : Option Nat :=
  if b ≤ a then some (a - b) else none

/-- `OpenOptions::open_from_file` (src/open_options.rs lines 145-156):
when `byte_len == 0` the length is inferred as
`f.metadata()?.len() as usize - self.byte_offset` (the `usize`
subtraction `usizeSub?`); otherwise the explicit length is kept.  The
outer `none` models the subtraction underflow (no `io::Result` is
returned then). -/
def open_from_file (ps : Nat) (file : Nat → Nat) (fileLen : Nat)
    (os : MmapOutcome) (fd : Int) (o : OpenOptions) :
    Option (Except Int RawMemoryMapping) :=
  match (if o.byte_len = 0 then usizeSub? fileLen o.byte_offset
         else some o.byte_len) with
  | none => none
  | some bl =>
      some (RawMemoryMapping.openMapping ps file os fd { o with byte_len := bl })

/-- `OpenOptions::open_from_fd` (src/open_options.rs lines 158-160):
passes the options through to `RawMemoryMapping::open` unchanged — no
file-size inference is possible or attempted. -/
def open_from_fd (ps : Nat) (file : Nat → Nat) (os : MmapOutcome)
    (fd : Int) (o : OpenOptions) : Except Int RawMemoryMapping :=
  RawMemoryMapping.openMapping ps file os fd o

/-- `OpenOptions::open_slice_from_file` (src/open_options.rs lines
188-199): textually the same resolution as `open_from_file`. -/
def open_slice_from_file (ps : Nat) (file : Nat → Nat) (fileLen : Nat)
    (os : MmapOutcome) (fd : Int) (o : OpenOptions) :
    Option (Except Int RawMemoryMapping) :=
  match (if o.byte_len = 0 then usizeSub? fileLen o.byte_offset
         else some o.byte_len) with
  | none => none
  | some bl =>
      some (RawMemoryMapping.openMapping ps file os fd { o with byte_len := bl })

/-- `OpenOptions::open_slice_from_fd` (src/open_options.rs lines
201-203). -/
def open_slice_from_fd (ps : Nat) (file : Nat → Nat) (os : MmapOutcome)
    (fd : Int) (o : OpenOptions) : Except Int RawMemoryMapping :=
  RawMemoryMapping.openMapping ps file os fd o

/-- `OpenOptions::open` (src/open_options.rs lines 140-143): the `fs`
open is an oracle producing the file's bytes and size (or an `io`
error), then `open_from_file`. -/
def openPath (ps : Nat) (fs : Except Int ((Nat → Nat) × Nat))
    (os : MmapOutcome) (fd : Int) (o : OpenOptions) :
    Option (Except Int RawMemoryMapping) :=
  match fs with
  | .error e => some (.error e)
  | .ok fl => open_from_file ps fl.1 fl.2 os fd o

/-- `OpenOptions::open_slice` (src/open_options.rs lines 183-186). -/
def openSlicePath (ps : Nat) (fs : Except Int ((Nat → Nat) × Nat))
    (os : MmapOutcome) (fd : Int) (o : OpenOptions) :
    Option (Except Int RawMemoryMapping) :=
  match fs with
  | .error e => some (.error e)
  | .ok fl => open_slice_from_file ps fl.1 fl.2 os fd o

/-- Logical segment length of a resolution result, when it succeeded. -/
def resultSegLen : Option (Except Int RawMemoryMapping) → Option Nat
  | some (.ok m) => some m.segment_byte_len
  | _ => none

/-- Demonstration configuration: read/write mapping at `byte_offset = 2`
(page size 4096, so alignment padding 2) with explicit `byte_len = 8`;
the element type has size 4, so the view initially has 2 elements. -/
def demoOpts : OpenOptions :=
  { OpenOptions.fresh with read := true, write := true, byte_offset := 2, byte_len := 8 }

/-- The mapping obtained by opening `demoOpts` on the file whose byte at
offset `i` is `i`, with the OS placing the mapping at base 0. -/
def demoMap : RawMemoryMapping :=
  match RawMemoryMapping.openMapping 4096 (fun i => i) (.ok 0) 3 demoOpts with
  | .ok m => m
  | .error _ => { ptr := 0, mem := [], byte_offset := 0 }

/-- State of `demoMap` after a successful `resize_with` to 4 elements
with the generator returning the bytes 50,51,52,53. -/
def demoGrown : RawMemoryMapping :=
  match (resize_with 4 (.ok 0) (fun _ => 99) (fun _ b => 50 + b) demoMap 4).1 with
  | .ok m => m
  | _ => demoMap

/-- State of `demoGrown` after a successful `shrink_to 2`. -/
def demoShrunk : RawMemoryMapping :=
  match shrink_to 4 (.ok 0) (fun _ => 99) demoGrown 2 with
  | some (m, .ok _) => m
  | _ => demoMap

/-- The mapping state produced by a successful `RawMemoryMapping::open`:
base address from the OS, the file's bytes from the page-aligned offset,
and the alignment padding stored in `byte_offset`. -/
def openedState (ps : Nat) (file : Nat → Nat) (base : Nat)
    (o : OpenOptions) : RawMemoryMapping :=
  { ptr := base
    mem := (List.range (o.byte_len + o.byte_offset % ps)).map
      (fun i => file (o.byte_offset - o.byte_offset % ps + i))
    byte_offset := o.byte_offset % ps }

lemma openMapping_ok (ps : Nat) (file : Nat → Nat) (base : Nat) (fd : Int)
    (o : OpenOptions) :
    RawMemoryMapping.openMapping ps file (.ok base) fd o =
      .ok (openedState ps file base o) := rfl

lemma openedState_byte_size (ps : Nat) (file : Nat → Nat) (base : Nat)
    (o : OpenOptions) :
    (openedState ps file base o).byte_size = o.byte_len + o.byte_offset % ps := by
  simp [openedState, RawMemoryMapping.byte_size]

lemma openedState_segment_byte_len (ps : Nat) (file : Nat → Nat) (base : Nat)
    (o : OpenOptions) :
    (openedState ps file base o).segment_byte_len = o.byte_len := by
  simp [RawMemoryMapping.segment_byte_len, openedState,
    RawMemoryMapping.byte_size]

/-- C1: the claim states that after every successful
`resize_uninit(new_len)` the raw mapping holds `new_len * element_size`
bytes AND the slice view has exactly `new_len` elements with
`segment_byte_len = new_len * element_size`, a multiple of the element
size, including for a mapping whose `byte_offset` is not page-aligned.
The code passes `new_len * size_of::<T>()` to `byte_resize` as the TOTAL
mapping size without re-adding the alignment padding, so on `demoMap`
(padding 2, element size 4, 2 elements) a successful `resize_uninit 3`
yields `byte_size = 12` but `segment_byte_len = 10` — not `12`, not a
multiple of `4` — and the view still has 2 elements, not 3.  This
contradicts `resize_uninit`'s own documentation ("resizes `self` to
`new_len` elements"). -/
theorem C1_resize_uninit_padding_bug :
    (resize_uninit 4 (.ok 0) (fun _ => 99) demoMap 3).2 = .ok () ∧
    (resize_uninit 4 (.ok 0) (fun _ => 99) demoMap 3).1.byte_size = 3 * 4 ∧
    (resize_uninit 4 (.ok 0) (fun _ => 99) demoMap 3).1.segment_byte_len = 10 ∧
    sliceLen 4 (resize_uninit 4 (.ok 0) (fun _ => 99) demoMap 3).1 = 2 ∧
    ¬ (4 ∣ (resize_uninit 4 (.ok 0) (fun _ => 99) demoMap 3).1.segment_byte_len) :=
  ⟨rfl, rfl, rfl, rfl, by decide⟩

/-- C6: the claim states that `shrink_to(new_len)` rejects
`new_len = len` (this half is true: the `assert!` fires, modelled as
`none`) and that `shrink_to(len - 1)` succeeds and reduces the visible
length by EXACTLY one element.  On `demoMap` (padding 2, element size 4,
2 elements) `shrink_to 1` succeeds but the resulting view has 0
elements — the length dropped by two, because `byte_resize` receives
`new_len * element_size` with the padding not re-added. -/
theorem C6_shrink_to_bug :
    sliceLen 4 demoMap = 2 ∧
    shrink_to 4 (.ok 0) (fun _ => 99) demoMap 2 = none ∧
    (match shrink_to 4 (.ok 0) (fun _ => 99) demoMap 1 with
     | some (m, .ok _) => some (sliceLen 4 m)
     | _ => none) = some 0 :=
  ⟨rfl, rfl, rfl⟩

/-- C7: the claim states that a successful `resize_with(new_len, f)` with
`new_len > old_len` invokes the generator exactly `new_len - old_len`
times.  On `demoMap` (padding 2, element size 4, `old_len = 2`) a
successful `resize_with 3` invokes the generator 0 times — the resized
view still has only 2 elements, so the tail `[old_len..]` is empty —
while the claim requires `3 - 2 = 1` invocation. -/
theorem C7_resize_with_generator_count_bug :
    sliceLen 4 demoMap = 2 ∧
    (match (resize_with 4 (.ok 0) (fun _ => 99) (fun _ b => 50 + b) demoMap 3).1 with
     | .ok _ => True
     | _ => False) ∧
    (resize_with 4 (.ok 0) (fun _ => 99) (fun _ b => 50 + b) demoMap 3).2 = 0 ∧
    (3 : Nat) - 2 = 1 :=
  ⟨rfl, trivial, rfl, rfl⟩

/-- C8: the claim states that growing a slice from N to 2N with a fill
generator and shrinking back to N leaves the elements at indices
`[0, N)` bit-identical to their pre-grow values.  On `demoMap` (padding
2, element size 4, N = 2) the grow-then-shrink succeeds, and the bytes
that remain in view are indeed preserved (index 0 is bit-identical), but
the final view has only 1 element: index 1 no longer exists, so the
claimed property fails at index 1. -/
theorem C8_frame_bug :
    elemAt? 4 demoMap 0 = some [2, 3, 4, 5] ∧
    elemAt? 4 demoMap 1 = some [6, 7, 8, 9] ∧
    sliceLen 4 demoShrunk = 1 ∧
    elemAt? 4 demoShrunk 0 = some [2, 3, 4, 5] ∧
    elemAt? 4 demoShrunk 1 = none :=
  ⟨rfl, rfl, rfl, rfl, rfl⟩

lemma open_from_file_explicit (ps : Nat) (file : Nat → Nat) (fileLen : Nat)
    (os : MmapOutcome) (fd : Int) (o : OpenOptions) (hL : o.byte_len ≠ 0) :
    open_from_file ps file fileLen os fd o =
      some (RawMemoryMapping.openMapping ps file os fd o) := by
  unfold open_from_file
  rw [if_neg hL]

lemma open_slice_from_file_explicit (ps : Nat) (file : Nat → Nat)
    (fileLen : Nat) (os : MmapOutcome) (fd : Int) (o : OpenOptions)
    (hL : o.byte_len ≠ 0) :
    open_slice_from_file ps file fileLen os fd o =
      some (RawMemoryMapping.openMapping ps file os fd o) := by
  unfold open_slice_from_file
  rw [if_neg hL]

lemma open_from_file_inferred (ps : Nat) (file : Nat → Nat) (fileLen : Nat)
    (os : MmapOutcome) (fd : Int) (o : OpenOptions) (h0 : o.byte_len = 0)
    (hle : o.byte_offset ≤ fileLen) :
    open_from_file ps file fileLen os fd o =
      some (RawMemoryMapping.openMapping ps file os fd
        { o with byte_len := fileLen - o.byte_offset }) := by
  unfold open_from_file
  rw [if_pos h0]
  unfold usizeSub?
  rw [if_pos hle]

lemma open_slice_from_file_inferred (ps : Nat) (file : Nat → Nat)
    (fileLen : Nat) (os : MmapOutcome) (fd : Int) (o : OpenOptions)
    (h0 : o.byte_len = 0) (hle : o.byte_offset ≤ fileLen) :
    open_slice_from_file ps file fileLen os fd o =
      some (RawMemoryMapping.openMapping ps file os fd
        { o with byte_len := fileLen - o.byte_offset }) := by
  unfold open_slice_from_file
  rw [if_pos h0]
  unfold usizeSub?
  rw [if_pos hle]

lemma open_from_file_underflow (ps : Nat) (file : Nat → Nat) (fileLen : Nat)
    (os : MmapOutcome) (fd : Int) (o : OpenOptions) (h0 : o.byte_len = 0)
    (hgt : fileLen < o.byte_offset) :
    open_from_file ps file fileLen os fd o = none := by
  unfold open_from_file
  rw [if_pos h0]
  unfold usizeSub?
  rw [if_neg (not_le.mpr hgt)]

lemma open_slice_from_file_underflow (ps : Nat) (file : Nat → Nat)
    (fileLen : Nat) (os : MmapOutcome) (fd : Int) (o : OpenOptions)
    (h0 : o.byte_len = 0) (hgt : fileLen < o.byte_offset) :
    open_slice_from_file ps file fileLen os fd o = none := by
  unfold open_slice_from_file
  rw [if_pos h0]
  unfold usizeSub?
  rw [if_neg (not_le.mpr hgt)]

/-- C2 (counterexample): the claim asserts that ALL resolution variants,
including the raw-descriptor ones, infer the length as
`file_size - byte_offset` when `byte_len = 0`.  For a backing file of
size 100 and default options (`byte_len = 0`, `byte_offset = 0`),
`open_from_fd` produces a mapping of logical length 0 — it has no access
to the file size and performs no inference — whereas the claim requires
`100 - 0 = 100`. -/
theorem C2_fd_no_inference_counterexample :
    (open_from_fd 4096 (fun _ => 0) (.ok 0) 3 OpenOptions.fresh).map
        RawMemoryMapping.segment_byte_len = .ok 0 ∧
    (0 : Nat) ≠ 100 - OpenOptions.fresh.byte_offset :=
  ⟨rfl, by decide⟩

/-- C2 (amended): for the path-based and file-handle-based variants,
`byte_len = 0` means the logical length is inferred as
`file_size - byte_offset`, and a nonzero `byte_len` is used as given;
the raw-descriptor-based variants perform no inference and always use
the configured `byte_len` as the logical length. -/
theorem C2_resolution_lengths (ps : Nat) (file : Nat → Nat)
    (fileLen base : Nat) (fd : Int) (o : OpenOptions) :
    (o.byte_len = 0 → o.byte_offset ≤ fileLen →
      resultSegLen (open_from_file ps file fileLen (.ok base) fd o)
          = some (fileLen - o.byte_offset) ∧
      resultSegLen (open_slice_from_file ps file fileLen (.ok base) fd o)
          = some (fileLen - o.byte_offset)) ∧
    (o.byte_len ≠ 0 →
      resultSegLen (open_from_file ps file fileLen (.ok base) fd o)
          = some o.byte_len ∧
      resultSegLen (open_slice_from_file ps file fileLen (.ok base) fd o)
          = some o.byte_len) ∧
    openPath ps (.ok ⟨file, fileLen⟩) (.ok base) fd o
        = open_from_file ps file fileLen (.ok base) fd o ∧
    openSlicePath ps (.ok ⟨file, fileLen⟩) (.ok base) fd o
        = open_slice_from_file ps file fileLen (.ok base) fd o ∧
    (open_from_fd ps file (.ok base) fd o).map RawMemoryMapping.segment_byte_len
        = .ok o.byte_len ∧
    (open_slice_from_fd ps file (.ok base) fd o).map RawMemoryMapping.segment_byte_len
        = .ok o.byte_len := by
  refine ⟨?_, ?_, rfl, rfl, ?_, ?_⟩
  · intro h0 hle
    rw [open_from_file_inferred _ _ _ _ _ _ h0 hle,
        open_slice_from_file_inferred _ _ _ _ _ _ h0 hle,
        openMapping_ok]
    constructor <;> simp [resultSegLen, openedState_segment_byte_len]
  · intro hL
    rw [open_from_file_explicit _ _ _ _ _ _ hL,
        open_slice_from_file_explicit _ _ _ _ _ _ hL,
        openMapping_ok]
    constructor <;> simp [resultSegLen, openedState_segment_byte_len]
  · rw [show open_from_fd ps file (.ok base) fd o
          = .ok (openedState ps file base o) from rfl]
    simp [Except.map, openedState_segment_byte_len]
  · rw [show open_slice_from_fd ps file (.ok base) fd o
          = .ok (openedState ps file base o) from rfl]
    simp [Except.map, openedState_segment_byte_len]

/-- C2 (witness): a file-handle resolution on a file of size 100 with
default options infers the logical length 100. -/
theorem C2_resolution_lengths_witness :
    resultSegLen (open_from_file 4096 (fun _ => 0) 100 (.ok 0) 3 OpenOptions.fresh)
      = some (100 - OpenOptions.fresh.byte_offset) :=
  ((C2_resolution_lengths 4096 (fun _ => 0) 100 0 3 OpenOptions.fresh).1
    rfl (by decide)).1

/-- C3: for every open request, the raw mapping primitive computes
`alignment_padding = byte_offset mod page_size` and issues exactly one
OS mapping call (the single `openCall`, by construction of
`openMapping`) with file offset `byte_offset - alignment_padding` and
total size `byte_len + alignment_padding`; on success the stored state
has `total_mapped_bytes = byte_len + alignment_padding`, stores the
padding, and the logical region starts at
`base_pointer + alignment_padding`. -/
theorem C3_open_alignment (ps : Nat) (file : Nat → Nat) (base : Nat)
    (fd : Int) (o : OpenOptions) (hps : 0 < ps) :
    (RawMemoryMapping.openCall ps fd o).file_offset
        = o.byte_offset - o.byte_offset % ps ∧
    (RawMemoryMapping.openCall ps fd o).size
        = o.byte_len + o.byte_offset % ps ∧
    ∀ m, RawMemoryMapping.openMapping ps file (.ok base) fd o = .ok m →
      m.byte_size = o.byte_len + o.byte_offset % ps ∧
      m.byte_offset = o.byte_offset % ps ∧
      m.segment_ptr = base + o.byte_offset % ps ∧
      m.ptr = base := by
  refine ⟨rfl, rfl, ?_⟩
  intro m h
  rw [openMapping_ok] at h
  injection h with h
  subst h
  exact ⟨openedState_byte_size ps file base o, rfl, rfl, rfl⟩

/-- C3 (witness): page size 4, `byte_offset = 5`, `byte_len = 3`, base 7:
the padding is 1 and the opened state holds `3 + 1` bytes. -/
theorem C3_open_alignment_witness :
    (RawMemoryMapping.openCall 4 3
        { OpenOptions.fresh with byte_offset := 5, byte_len := 3 }).size
      = 3 + 5 % 4 ∧
    (⟨7, [4, 5, 6, 7], 1⟩ : RawMemoryMapping).byte_size = 3 + 5 % 4 :=
  ⟨(C3_open_alignment 4 (fun i => i) 7 3
      { OpenOptions.fresh with byte_offset := 5, byte_len := 3 } (by decide)).2.1,
   ((C3_open_alignment 4 (fun i => i) 7 3
      { OpenOptions.fresh with byte_offset := 5, byte_len := 3 } (by decide)).2.2
      ⟨7, [4, 5, 6, 7], 1⟩ rfl).1⟩

/-- C4: every successful resolution with an explicit nonzero
`byte_len = L` yields `segment_byte_len = L`; and a slice mapping
configured via `len(n)` (so `byte_len = n * element_size`) exposes
exactly `n` elements, since the element count divides by the same
element size. -/
theorem C4_explicit_len (ps : Nat) (file : Nat → Nat)
    (fileLen base s n : Nat) (fd : Int) (o : OpenOptions)
    (hL : o.byte_len ≠ 0) (hs : 0 < s) (hn : 0 < n) :
    (∀ m, open_from_file ps file fileLen (.ok base) fd o = some (.ok m) →
        m.segment_byte_len = o.byte_len) ∧
    (∀ m, open_slice_from_file ps file fileLen (.ok base) fd
          (OpenOptions.len s o n) = some (.ok m) →
        m.segment_byte_len = n * s ∧ sliceLen s m = n) := by
  constructor
  · intro m h
    rw [open_from_file_explicit _ _ _ _ _ _ hL, openMapping_ok] at h
    injection h with h
    injection h with h
    subst h
    exact openedState_segment_byte_len ps file base o
  · intro m h
    have hL2 : (OpenOptions.len s o n).byte_len ≠ 0 :=
      Nat.mul_ne_zero hn.ne' hs.ne'
    rw [open_slice_from_file_explicit _ _ _ _ _ _ hL2, openMapping_ok] at h
    injection h with h
    injection h with h
    subst h
    constructor
    · exact openedState_segment_byte_len ps file base _
    · unfold sliceLen
      rw [openedState_segment_byte_len]
      show n * s / s = n
      exact Nat.mul_div_cancel n hs

/-- C4 (witness): opening via `len(2)` with element size 4 at
`byte_offset = 2` (padding 2) yields a segment of `2 * 4` bytes and a
view of exactly 2 elements. -/
theorem C4_explicit_len_witness :
    (⟨0, [0, 1, 2, 3, 4, 5, 6, 7, 8, 9], 2⟩ : RawMemoryMapping).segment_byte_len
        = 2 * 4 ∧
    sliceLen 4 (⟨0, [0, 1, 2, 3, 4, 5, 6, 7, 8, 9], 2⟩ : RawMemoryMapping) = 2 :=
  (C4_explicit_len 4 (fun i => i) 50 0 4 2 3
      { OpenOptions.fresh with byte_offset := 2, byte_len := 1 }
      (by decide) (by decide) (by decide)).2
    ⟨0, [0, 1, 2, 3, 4, 5, 6, 7, 8, 9], 2⟩ rfl

/-- C5: every failing OS call during open or resize surfaces the
originating OS error code to the caller (a single call, no retry — the
oracle outcome is consumed exactly once by construction), and a failing
`byte_resize` leaves the mapping's tracked pointer and byte size exactly
as they were: the returned state is the input state itself. -/
theorem C5_error_propagation_no_mutation (ps : Nat) (file : Nat → Nat)
    (uninit : Nat → Nat) (fd e : Int) (o : OpenOptions)
    (m : RawMemoryMapping) (n : Nat) :
    RawMemoryMapping.openMapping ps file (.fail e) fd o = .error e ∧
    RawMemoryMapping.byte_resize (.fail e) uninit m n = (m, .error e) ∧
    open_from_fd ps file (.fail e) fd o = .error e ∧
    open_slice_from_fd ps file (.fail e) fd o = .error e :=
  ⟨rfl, rfl, rfl, rfl⟩

/-- C9: `resize(new_len, fill_value)` is observably equivalent to
`resize_with(new_len, g)` with `g` the constant generator returning
`fill_value`: the full results (success/error outcome, resulting mapping
state, generator-invocation count) are equal, and so is every element
value of the resulting state.  In the source `resize` literally
delegates to `resize_with` with the closure `move || fill`. -/
theorem C9_resize_equals_resize_with (s : Nat) (os : MremapOutcome)
    (uninit c : Nat → Nat) (m : RawMemoryMapping) (new_len i : Nat) :
    resize s os uninit c m new_len
        = resize_with s os uninit (fun _ => c) m new_len ∧
    resultElem? s (resize s os uninit c m new_len).1 i
        = resultElem? s (resize_with s os uninit (fun _ => c) m new_len).1 i :=
  ⟨rfl, rfl⟩

/-- C10: when `byte_len = 0` and `byte_offset` exceeds the backing
file's size, the inferred-length subtraction `file_size - byte_offset`
underflows `usize`: `open_from_file` and `open_slice_from_file` return
no `io` result at all (modelled `none`, a panic/wrap), hence no `io`
error; the computation returns normally exactly under the unstated
precondition `byte_offset ≤ file_size`. -/
theorem C10_len_inference_underflow (ps : Nat) (file : Nat → Nat)
    (fileLen : Nat) (os : MmapOutcome) (fd : Int) (o : OpenOptions)
    (h0 : o.byte_len = 0) :
    (fileLen < o.byte_offset →
      open_from_file ps file fileLen os fd o = none ∧
      open_slice_from_file ps file fileLen os fd o = none) ∧
    (o.byte_offset ≤ fileLen →
      (open_from_file ps file fileLen os fd o).isSome = true ∧
      (open_slice_from_file ps file fileLen os fd o).isSome = true) := by
  constructor
  · intro hgt
    exact ⟨open_from_file_underflow _ _ _ _ _ _ h0 hgt,
           open_slice_from_file_underflow _ _ _ _ _ _ h0 hgt⟩
  · intro hle
    rw [open_from_file_inferred _ _ _ _ _ _ h0 hle,
        open_slice_from_file_inferred _ _ _ _ _ _ h0 hle]
    exact ⟨rfl, rfl⟩

/-- C10 (witness): a file of size 5 opened with `byte_offset = 9` and
`byte_len = 0` produces no `io` result (the subtraction underflows). -/
theorem C10_len_inference_underflow_witness :
    open_from_file 4096 (fun _ => 0) 5 (.ok 0) 3
        { OpenOptions.fresh with byte_offset := 9 } = none :=
  ((C10_len_inference_underflow 4096 (fun _ => 0) 5 (.ok 0) 3
      { OpenOptions.fresh with byte_offset := 9 } rfl).1 (by decide)).1
